import Mathlib

/-!
Shallow embedding of the member-search and MDX-expression-generation core of
the EPM repository (`epm/essbase.py` and `epm/mdx.py`), together with proofs
of the specified properties.

Conventions of the embedding:
* Python dicts read with `.get(key)` become records with `Option` fields;
  an unconditional subscript `d[key]` becomes an `Except` access that errors
  (`PyError.keyError`) when the key is absent, mirroring Python's `KeyError`.
* Fallible Python code (code that can raise) is embedded in
  `Except PyError _`; a raised exception that propagates out of a function
  is an `Except.error` result.
* The HTTP lookup performed once per entity name is abstracted as a pure
  collaborator function `String → LookupResult` (non-200 response =
  `LookupResult.failure`; 200 response = `LookupResult.success items`, where
  `items` is `data.get('items', [])` of the response body).
-/

namespace EPM

/-- `Member` TypedDict of `epm/essbase.py` (lines 29-32): all three fields are
required keys, always populated by the `Member(...)` construction. -/
structure Member where
  dimension : String
  name : String
  unique_name : String
deriving Repr, DecidableEq

/-- `SearchMemberResult` TypedDict of `epm/essbase.py` (lines 35-37):
`member` is a `Member` dict or `None`. -/
structure SearchMemberResult where
  entity_name : String
  member : Option Member
deriving Repr, DecidableEq

/-- One raw search hit: a JSON object from the outline-search endpoint.
The code reads `name`, `uniqueName` and `dimensionName` with `.get`, so each
key may be absent. -/
structure Item where
  name : Option String
  uniqueName : Option String
  dimensionName : Option String
deriving Repr, DecidableEq

/-- The Python exceptions the embedded code can raise. -/
inductive PyError
  | keyError (key : String)
  | typeError (msg : String)
  | valueError (msg : String)
deriving Repr, DecidableEq

/-- Outcome of the HTTP GET issued for one entity name in `search_members`:
`failure` is a response with `status_code != 200` (line 191); `success items`
is a 200 response whose parsed body yields `data.get('items', []) = items`
(lines 194-195). -/
inductive LookupResult
  | failure
  | success (items : List Item)
deriving Repr, DecidableEq

/-- Candidate selection of `search_members`, `epm/essbase.py` lines 200-207:
a single item is taken as-is; among several, the first whose `uniqueName`
equals the query, else the first whose `name` equals the query, else
`items[0]`.  (Python's `next((itm for itm in items if ...), None)` is
`List.find?`; the guard `if not item` coincides with `item is None` because
any dict matching either predicate is non-empty, hence truthy.) -/
def select_item (entity_name : String) (items : List Item) : Option Item :=
  match items with
  | [] => none
  | [item] => some item
  | _ :: _ :: _ =>
    match items.find? (fun itm => itm.uniqueName = some entity_name) with
    | some item => some item
    | none =>
      match items.find? (fun itm => itm.name = some entity_name) with
      | some item => some item
      | none => items.head?

/-- Member construction of `search_members`, `epm/essbase.py` lines 209-214:
`member_name = item.get('name', '')`, `dimension = item.get('dimensionName',
member_name)`, and the unconditional subscript `item['uniqueName']`, which
raises `KeyError` when the key is absent. -/
def member_from_item (item : Item) : Except PyError Member :=
  let member_name := item.name.getD ""
  match item.uniqueName with
  | none => Except.error (PyError.keyError "uniqueName")
  | some u =>
      Except.ok { dimension := item.dimensionName.getD member_name,
                  name := member_name,
                  unique_name := u }

/-- One iteration of the `for entity_name in entity_names` loop body of
`search_members` (`epm/essbase.py` lines 185-215), with the HTTP call
abstracted as `lookup`: non-200 and empty-items cases append `None`
(lines 191-198); otherwise the selected item is converted to a `Member`
(lines 200-214), whose missing `uniqueName` raises. -/
def resolve_one (lookup : String → LookupResult) (entity_name : String) :
    Except PyError (Option Member) :=
  match lookup entity_name with
  | LookupResult.failure => Except.ok none
  | LookupResult.success items =>
    match select_item entity_name items with
    | none => Except.ok none
    | some item =>
      match member_from_item item with
      | Except.error e => Except.error e
      | Except.ok m => Except.ok (some m)

/-- The `results` list accumulated by the loop of `search_members`
(`epm/essbase.py` lines 183-215), in input order.  An exception raised by an
iteration propagates, discarding the partial list, exactly as the Python
exception aborts the call. -/
def search_members_loop (lookup : String → LookupResult) :
    List String → Except PyError (List SearchMemberResult)
  | [] => Except.ok []
  | entity_name :: rest =>
    match resolve_one lookup entity_name with
    | Except.error e => Except.error e
    | Except.ok m =>
      match search_members_loop lookup rest with
      | Except.error e => Except.error e
      | Except.ok rs => Except.ok ({ entity_name := entity_name, member := m } :: rs)

/-- The declared return type of `search_members` is
`List[SearchMemberResult] | str`; this union is embedded faithfully so that
which side is actually produced is a provable question. -/
inductive SearchMembersReturn
  | list (results : List SearchMemberResult)
  | str (message : String)
deriving Repr, DecidableEq

/-- `search_members` of `epm/essbase.py` (lines 165-217): runs the loop and
returns `results` (line 217) — the single return statement of the function,
wrapped in the declared union type. -/
def search_members (lookup : String → LookupResult) (entity_names : List String) :
    Except PyError SearchMembersReturn :=
  match search_members_loop lookup entity_names with
  | Except.error e => Except.error e
  | Except.ok results => Except.ok (SearchMembersReturn.list results)

/-! ## `epm/mdx.py` -/

/-- A value supplied as an endpoint of a member range: the annotation in
`epm/mdx.py` (lines 7-9) says `Member`, but Python does not enforce it, and
a caller may pass a bare name string; the two runtime shapes are embedded as
a sum. -/
inductive MemberOrName
  | member (m : Member)
  | name (s : String)
deriving Repr, DecidableEq

/-- `MemberRange` TypedDict of `epm/mdx.py` (lines 7-9). -/
structure MemberRange where
  start_member_name : MemberOrName
  end_member_name : MemberOrName
deriving Repr, DecidableEq

/-- `SetFunction` pydantic model of `epm/mdx.py` (lines 12-13). -/
structure SetFunction where
  function_name : String
deriving Repr, DecidableEq

/-- The runtime value of `set_['members']`: `MemberRange | List[str] |
SetFunction` (`epm/mdx.py` line 17). -/
inductive Members
  | range (r : MemberRange)
  | names (l : List String)
  | fn (f : SetFunction)
deriving Repr, DecidableEq

/-- `Set` TypedDict of `epm/mdx.py` (lines 16-17). -/
structure Set where
  members : Members
deriving Repr, DecidableEq

/-- Python subscript `e['unique_name']` applied to a range endpoint
(`epm/mdx.py` line 30): on a `Member` dict the key is present and its value
is returned; on a bare string, subscripting with a string key raises
`TypeError: string indices must be integers`. -/
def endpoint_unique_name : MemberOrName → Except PyError String
  | MemberOrName.member m => Except.ok m.unique_name
  | MemberOrName.name _ =>
      Except.error (PyError.typeError "string indices must be integers")

/-- `member_range_MDX_expression` of `epm/mdx.py` (lines 20-30): the f-string
`f"MemberRange({start['unique_name']}, {end['unique_name']})"`, whose two
subscripts are evaluated left to right and may raise. -/
def member_range_MDX_expression (member_range : MemberRange) : Except PyError String :=
  match endpoint_unique_name member_range.start_member_name with
  | Except.error e => Except.error e
  | Except.ok s =>
    match endpoint_unique_name member_range.end_member_name with
    | Except.error e => Except.error e
    | Except.ok t => Except.ok ("MemberRange(" ++ s ++ ", " ++ t ++ ")")

/-- `isinstance(x, MemberRange)` where `MemberRange` is a `typing.TypedDict`
subclass: CPython's `_TypedDictMeta.__instancecheck__` raises
`TypeError('TypedDict does not support instance and class checks')`
unconditionally, for every argument. -/
def isinstance_MemberRange (_ : Members) : Except PyError Bool :=
  Except.error (PyError.typeError "TypedDict does not support instance and class checks")

/-- `isinstance(x, list)`: true exactly on the list-of-names shape. -/
def isinstance_list : Members → Bool
  | Members.names _ => true
  | _ => false

/-- `isinstance(x, SetFunction)`: `SetFunction` is a pydantic `BaseModel`,
so this is an ordinary class check, true exactly on the function shape. -/
def isinstance_SetFunction : Members → Bool
  | Members.fn _ => true
  | _ => false

/-- `set_MDX_expression` of `epm/mdx.py` (lines 33-50): the `isinstance`
cascade over the three variants, ending in
`raise ValueError("Invalid members type in Set")`.  The inner wildcard
branches are unreachable (each guard is true only on the matching shape);
they repeat the final `raise` only to totalise the match. -/
def set_MDX_expression (set_ : Set) : Except PyError String :=
  match isinstance_MemberRange set_.members with
  | Except.error e => Except.error e
  | Except.ok true =>
    match set_.members with
    | Members.range r => member_range_MDX_expression r
    | _ => Except.error (PyError.valueError "Invalid members type in Set")
  | Except.ok false =>
    if isinstance_list set_.members then
      match set_.members with
      | Members.names l => Except.ok ("\x7b" ++ String.intercalate ", " l ++ "\x7d")
      | _ => Except.error (PyError.valueError "Invalid members type in Set")
    else if isinstance_SetFunction set_.members then
      match set_.members with
      | Members.fn f => Except.ok (f.function_name ++ "()")
      | _ => Except.error (PyError.valueError "Invalid members type in Set")
    else Except.error (PyError.valueError "Invalid members type in Set")

/-! ## Concrete fixtures

Closed inputs used to instantiate the proved properties; the items mirror
JSON hits of the outline-search endpoint. -/

/-- Spec example hit `{name:"X", unique_name:"Y"}`. -/
def itemX : Item := { name := some "X", uniqueName := some "Y", dimensionName := none }

/-- Spec example hit `{name:"Q", unique_name:"Qry"}`. -/
def itemQry : Item := { name := some "Q", uniqueName := some "Qry", dimensionName := none }

/-- A single candidate that does not match the query `"Jan"`. -/
def febItem : Item :=
  { name := some "February", uniqueName := some "[February]", dimensionName := none }

/-- A fully populated hit for the name `"Jan"`. -/
def janItem : Item :=
  { name := some "Jan", uniqueName := some "[Jan]", dimensionName := some "Year" }

/-- A lookup that finds `janItem` for `"Jan"` and fails otherwise. -/
def w3Lookup : String → LookupResult := fun q =>
  if q = "Jan" then LookupResult.success [janItem] else LookupResult.failure

/-- The batch result of `w3Lookup` on `["Jan", "Jan", "Zed"]`. -/
def w3Results : List SearchMemberResult :=
  [ { entity_name := "Jan",
      member := some { dimension := "Year", name := "Jan", unique_name := "[Jan]" } },
    { entity_name := "Jan",
      member := some { dimension := "Year", name := "Jan", unique_name := "[Jan]" } },
    { entity_name := "Zed", member := none } ]

/-- A lookup that resolves every name `q` to a single hit `[q]`. -/
def wOkLookup : String → LookupResult := fun q =>
  LookupResult.success
    [{ name := some q, uniqueName := some ("[" ++ q ++ "]"), dimensionName := some "D" }]

/-- `wOkLookup` with the lookup for `"B"` replaced by a non-200 failure. -/
def wFailLookup : String → LookupResult := fun q =>
  if q = "B" then LookupResult.failure else wOkLookup q

/-- The batch result of `wOkLookup` on `["A", "B", "C"]`. -/
def wOkResults : List SearchMemberResult :=
  [ { entity_name := "A",
      member := some { dimension := "D", name := "A", unique_name := "[A]" } },
    { entity_name := "B",
      member := some { dimension := "D", name := "B", unique_name := "[B]" } },
    { entity_name := "C",
      member := some { dimension := "D", name := "C", unique_name := "[C]" } } ]

/-- A well-formed hit for the name `"A"`. -/
def goodItemA : Item :=
  { name := some "A", uniqueName := some "[A]", dimensionName := some "Dim" }

/-- A hit whose JSON object lacks the `uniqueName` key. -/
def noUniqueItemB : Item :=
  { name := some "B", uniqueName := none, dimensionName := some "Dim" }

/-- A lookup returning `goodItemA` for `"A"` and the defective `noUniqueItemB`
for every other name. -/
def c6Lookup : String → LookupResult := fun q =>
  if q = "A" then LookupResult.success [goodItemA] else LookupResult.success [noUniqueItemB]

/-- A hit carrying only a `uniqueName`. -/
def bareItem : Item := { name := none, uniqueName := some "[X]", dimensionName := none }

/-! ## Helper lemmas -/

/-- `resolve_one` depends on the lookup collaborator only through its value at
the queried name. -/
theorem resolve_one_congr (lookup lookup' : String → LookupResult) (q : String)
    (h : lookup q = lookup' q) : resolve_one lookup q = resolve_one lookup' q := by
  unfold resolve_one
  rw [h]

/-- `search_members` returns the list produced by its loop, and nothing else. -/
theorem search_members_eq_ok_iff (lookup : String → LookupResult)
    (names : List String) (rs : List SearchMemberResult) :
    search_members lookup names = Except.ok (SearchMembersReturn.list rs) ↔
      search_members_loop lookup names = Except.ok rs := by
  unfold search_members
  cases hl : search_members_loop lookup names with
  | error e => simp
  | ok rs0 => simp

/-- The loop of `search_members` emits one result per entity name, in input
order, each equal to the standalone resolution of its own name. -/
theorem search_members_loop_spec (lookup : String → LookupResult) :
    ∀ (names : List String) (rs : List SearchMemberResult),
      search_members_loop lookup names = Except.ok rs →
      rs.map SearchMemberResult.entity_name = names ∧
      ∀ r ∈ rs, resolve_one lookup r.entity_name = Except.ok r.member := by
  intro names
  induction names with
  | nil =>
    intro rs h
    simp only [search_members_loop, Except.ok.injEq] at h
    subst h
    simp
  | cons n rest ih =>
    intro rs h
    simp only [search_members_loop] at h
    cases hr : resolve_one lookup n with
    | error e => rw [hr] at h; simp at h
    | ok m =>
      rw [hr] at h
      cases hl : search_members_loop lookup rest with
      | error e => rw [hl] at h; simp at h
      | ok rs0 =>
        rw [hl] at h
        simp only [Except.ok.injEq] at h
        subst h
        obtain ⟨hmap, hall⟩ := ih rs0 hl
        refine ⟨by simp [hmap], ?_⟩
        intro r hrmem
        rcases List.mem_cons.mp hrmem with hEq | hmem0
        · subst hEq; exact hr
        · exact hall r hmem0

/-- If the standalone resolution of some batched name raises, the whole loop
raises. -/
theorem search_members_loop_error_of_mem (lookup : String → LookupResult)
    (q : String) (e : PyError) (he : resolve_one lookup q = Except.error e) :
    ∀ names : List String, q ∈ names →
      ∃ e', search_members_loop lookup names = Except.error e' := by
  intro names
  induction names with
  | nil => intro hq; cases hq
  | cons n rest ih =>
    intro hq
    cases hr : resolve_one lookup n with
    | error e0 => exact ⟨e0, by simp [search_members_loop, hr]⟩
    | ok m =>
      rcases List.mem_cons.mp hq with hEq | hmem
      · rw [← hEq] at hr; rw [he] at hr; cases hr
      · obtain ⟨e', hl⟩ := ih hmem
        exact ⟨e', by simp [search_members_loop, hr, hl]⟩

/-- Replacing the lookup of one name by a failure turns exactly that name's
results into `None` and leaves every other result of the loop unchanged. -/
theorem search_members_loop_failure_isolated
    (lookup lookup' : String → LookupResult) (bad : String)
    (hbad : lookup bad = LookupResult.failure)
    (hagree : ∀ q, q ≠ bad → lookup q = lookup' q) :
    ∀ (names : List String) (rs' : List SearchMemberResult),
      search_members_loop lookup' names = Except.ok rs' →
      search_members_loop lookup names = Except.ok (rs'.map (fun r =>
        if r.entity_name = bad then { entity_name := r.entity_name, member := none }
        else r)) := by
  intro names
  induction names with
  | nil =>
    intro rs' h
    simp only [search_members_loop, Except.ok.injEq] at h
    subst h
    simp [search_members_loop]
  | cons n rest ih =>
    intro rs' h
    simp only [search_members_loop] at h
    cases hr : resolve_one lookup' n with
    | error e => rw [hr] at h; simp at h
    | ok m =>
      rw [hr] at h
      cases hl : search_members_loop lookup' rest with
      | error e => rw [hl] at h; simp at h
      | ok rest' =>
        rw [hl] at h
        simp only [Except.ok.injEq] at h
        subst h
        by_cases hn : n = bad
        · subst hn
          have hres : resolve_one lookup n = Except.ok none := by
            unfold resolve_one
            rw [hbad]
          simp [search_members_loop, hres, ih rest' hl]
        · have hres : resolve_one lookup n = Except.ok m := by
            rw [resolve_one_congr lookup lookup' n (hagree n hn)]
            exact hr
          simp [search_members_loop, hres, ih rest' hl, hn]

/-! ## Claims -/

/-- Claim C1: for every query whose lookup returns two or more candidates,
`search_members` selects the candidate by the tie-break, in order, stopping at
the first match: first a candidate whose `uniqueName` equals the queried
entity name exactly (case-sensitive), else a candidate whose `name` equals the
entity name exactly, else the first candidate in the returned order.  The
selected candidate of each stage is the earliest one in the returned order. -/
theorem search_members_tie_break (q : String) (items : List Item)
    (h : 2 ≤ items.length) :
    ((∃ c ∈ items, c.uniqueName = some q) →
      ∃ c l₁ l₂, select_item q items = some c ∧ items = l₁ ++ c :: l₂ ∧
        c.uniqueName = some q ∧ ∀ a ∈ l₁, a.uniqueName ≠ some q) ∧
    ((∀ c ∈ items, c.uniqueName ≠ some q) →
      (∃ c ∈ items, c.name = some q) →
      ∃ c l₁ l₂, select_item q items = some c ∧ items = l₁ ++ c :: l₂ ∧
        c.name = some q ∧ ∀ a ∈ l₁, a.name ≠ some q) ∧
    ((∀ c ∈ items, c.uniqueName ≠ some q) → (∀ c ∈ items, c.name ≠ some q) →
      ∃ h₀ : 0 < items.length, select_item q items = some (items.get ⟨0, h₀⟩)) := by
  rcases items with _ | ⟨a, _ | ⟨b, t⟩⟩
  · simp at h
  · simp at h
  refine ⟨?_, ?_, ?_⟩
  · rintro ⟨c0, hc0mem, hc0uq⟩
    have hissome : ((a :: b :: t).find? (fun itm => itm.uniqueName = some q)).isSome := by
      rw [List.find?_isSome]
      exact ⟨c0, hc0mem, by simp [hc0uq]⟩
    obtain ⟨c, hfind⟩ := Option.isSome_iff_exists.mp hissome
    obtain ⟨hpc, l₁, l₂, hdecomp, hfirst⟩ := List.find?_eq_some.mp hfind
    refine ⟨c, l₁, l₂, ?_, hdecomp, by simpa using hpc, ?_⟩
    · simp [select_item, hfind]
    · intro x hx
      simpa using hfirst x hx
  · intro hnone hex
    have hfu : (a :: b :: t).find? (fun itm => itm.uniqueName = some q) = none := by
      rw [List.find?_eq_none]
      intro x hx
      simpa using hnone x hx
    obtain ⟨c0, hc0mem, hc0n⟩ := hex
    have hissome : ((a :: b :: t).find? (fun itm => itm.name = some q)).isSome := by
      rw [List.find?_isSome]
      exact ⟨c0, hc0mem, by simp [hc0n]⟩
    obtain ⟨c, hfind⟩ := Option.isSome_iff_exists.mp hissome
    obtain ⟨hpc, l₁, l₂, hdecomp, hfirst⟩ := List.find?_eq_some.mp hfind
    refine ⟨c, l₁, l₂, ?_, hdecomp, by simpa using hpc, ?_⟩
    · simp [select_item, hfu, hfind]
    · intro x hx
      simpa using hfirst x hx
  · intro hnu hnn
    have hfu : (a :: b :: t).find? (fun itm => itm.uniqueName = some q) = none := by
      rw [List.find?_eq_none]
      intro x hx
      simpa using hnu x hx
    have hfn : (a :: b :: t).find? (fun itm => itm.name = some q) = none := by
      rw [List.find?_eq_none]
      intro x hx
      simpa using hnn x hx
    exact ⟨by simp, by simp [select_item, hfu, hfn]⟩

/-- Witness for C1 at the spec's own example: query `"Qry"` against
`[{name:"X", uniqueName:"Y"}, {name:"Q", uniqueName:"Qry"}]` selects the
second candidate by the `uniqueName` exact match. -/
theorem search_members_tie_break_witness :
    ∃ c l₁ l₂, select_item "Qry" [itemX, itemQry] = some c ∧
      [itemX, itemQry] = l₁ ++ c :: l₂ ∧ c.uniqueName = some "Qry" ∧
      ∀ a ∈ l₁, a.uniqueName ≠ some "Qry" :=
  (search_members_tie_break "Qry" [itemX, itemQry] (by decide)).1
    ⟨itemQry, by decide, rfl⟩

/-- Claim C2: for every query whose lookup returns exactly one candidate,
`search_members` selects that candidate unconditionally — no name matching is
applied, even when the candidate's `name` and `uniqueName` both differ from
the queried entity name (the query `q` is unconstrained here). -/
theorem search_members_single_candidate
    (lookup : String → LookupResult) (q : String) (c : Item) (u : String)
    (hl : lookup q = LookupResult.success [c]) (hu : c.uniqueName = some u) :
    select_item q [c] = some c ∧
    search_members lookup [q] = Except.ok (SearchMembersReturn.list
      [{ entity_name := q,
         member := some { dimension := c.dimensionName.getD (c.name.getD ""),
                          name := c.name.getD "",
                          unique_name := u } }]) := by
  refine ⟨rfl, ?_⟩
  simp [search_members, search_members_loop, resolve_one, hl, select_item,
    member_from_item, hu]

/-- Witness for C2: the query `"Jan"` with the single candidate `febItem`
(named `"February"`, matching nothing of the query) still resolves to that
candidate. -/
theorem search_members_single_candidate_witness :
    select_item "Jan" [febItem] = some febItem ∧
    search_members (fun _ => LookupResult.success [febItem]) ["Jan"] =
      Except.ok (SearchMembersReturn.list
        [{ entity_name := "Jan",
           member := some { dimension := "February", name := "February",
                            unique_name := "[February]" } }]) :=
  search_members_single_candidate (fun _ => LookupResult.success [febItem])
    "Jan" febItem "[February]" rfl rfl

/-- Claim C5: every selected candidate is converted to a `Member` whose
`dimension` is the candidate's `dimensionName` (or the candidate's name when
`dimensionName` is absent), whose `name` is the candidate's `name` (or the
empty string when absent), and whose `unique_name` is copied verbatim from
the candidate's `uniqueName`. -/
theorem member_from_item_fields (item : Item) (u : String)
    (h : item.uniqueName = some u) :
    ∃ m : Member, member_from_item item = Except.ok m ∧
      m.unique_name = u ∧
      (∀ n, item.name = some n → m.name = n) ∧
      (item.name = none → m.name = "") ∧
      (∀ d, item.dimensionName = some d → m.dimension = d) ∧
      (item.dimensionName = none → m.dimension = m.name) := by
  refine ⟨{ dimension := item.dimensionName.getD (item.name.getD ""),
            name := item.name.getD "", unique_name := u }, ?_, rfl, ?_, ?_, ?_, ?_⟩
  · unfold member_from_item
    rw [h]
  · intro n hn
    simp [hn]
  · intro hn
    simp [hn]
  · intro d hd
    simp [hd]
  · intro hd
    simp [hd]

/-- Witness for C5 at `bareItem` (only `uniqueName` present): `name` falls
back to the empty string and `dimension` to that name. -/
theorem member_from_item_fields_witness :
    ∃ m : Member, member_from_item bareItem = Except.ok m ∧
      m.unique_name = "[X]" ∧
      (∀ n, bareItem.name = some n → m.name = n) ∧
      (bareItem.name = none → m.name = "") ∧
      (∀ d, bareItem.dimensionName = some d → m.dimension = d) ∧
      (bareItem.dimensionName = none → m.dimension = m.name) :=
  member_from_item_fields bareItem "[X]" rfl

/-- Claim C3: whenever `search_members` returns a result list, it has the
same length as the input sequence, the i-th result carries the i-th queried
entity name (the projection of the results onto `entity_name` is the input
sequence itself, duplicates included), and every result — each occurrence of
a duplicate name separately — equals the standalone resolution of its own
name. -/
theorem search_members_preserves_batch (lookup : String → LookupResult)
    (names : List String) (rs : List SearchMemberResult)
    (h : search_members lookup names = Except.ok (SearchMembersReturn.list rs)) :
    rs.length = names.length ∧
    rs.map SearchMemberResult.entity_name = names ∧
    ∀ r ∈ rs, resolve_one lookup r.entity_name = Except.ok r.member := by
  have hloop := (search_members_eq_ok_iff lookup names rs).mp h
  obtain ⟨hmap, hres⟩ := search_members_loop_spec lookup names rs hloop
  refine ⟨?_, hmap, hres⟩
  rw [← hmap]
  simp

/-- Witness for C3 on the batch `["Jan", "Jan", "Zed"]` with a duplicated
name: three results, in input order, each independently resolved. -/
theorem search_members_preserves_batch_witness :
    w3Results.length = (["Jan", "Jan", "Zed"] : List String).length ∧
    w3Results.map SearchMemberResult.entity_name = ["Jan", "Jan", "Zed"] ∧
    ∀ r ∈ w3Results, resolve_one w3Lookup r.entity_name = Except.ok r.member :=
  search_members_preserves_batch w3Lookup ["Jan", "Jan", "Zed"] w3Results rfl

/-- Claim C4: a lookup failure (non-success response) for one entity name
yields `member = None` for exactly that name's occurrences and nothing else:
relative to any run whose lookup agrees everywhere else, the batch still
returns normally and the results of the other entities are verbatim what they
would be without the failure. -/
theorem search_members_failure_isolated
    (lookup lookup' : String → LookupResult) (names : List String) (bad : String)
    (rs' : List SearchMemberResult)
    (hbad : lookup bad = LookupResult.failure)
    (hagree : ∀ q, q ≠ bad → lookup q = lookup' q)
    (h' : search_members lookup' names = Except.ok (SearchMembersReturn.list rs')) :
    search_members lookup names = Except.ok (SearchMembersReturn.list
      (rs'.map (fun r =>
        if r.entity_name = bad then { entity_name := r.entity_name, member := none }
        else r))) := by
  have hloop' := (search_members_eq_ok_iff lookup' names rs').mp h'
  exact (search_members_eq_ok_iff lookup names _).mpr
    (search_members_loop_failure_isolated lookup lookup' bad hbad hagree names rs' hloop')

/-- Witness for C4: in the batch `["A", "B", "C"]`, failing the lookup of
`"B"` leaves the results of `"A"` and `"C"` exactly as under the unfailed
lookup and turns only `"B"` into `None`. -/
theorem search_members_failure_isolated_witness :
    search_members wFailLookup ["A", "B", "C"] = Except.ok (SearchMembersReturn.list
      [ { entity_name := "A",
          member := some { dimension := "D", name := "A", unique_name := "[A]" } },
        { entity_name := "B", member := none },
        { entity_name := "C",
          member := some { dimension := "D", name := "C", unique_name := "[C]" } } ]) :=
  search_members_failure_isolated wFailLookup wOkLookup ["A", "B", "C"] "B"
    wOkResults rfl (fun q hq => by simp [wFailLookup, hq]) rfl

/-- Counterexample to C6 as stated: on the batch `["A", "B"]` under
`c6Lookup`, the candidate selected for `"B"` lacks a `uniqueName`; the code
raises `KeyError` out of the whole call, so no result list is returned at all
— in particular not the list the claim predicts, in which `"A"` is resolved
and only `"B"` is failed. -/
theorem missing_unique_name_counterexample :
    search_members c6Lookup ["A", "B"] = Except.error (PyError.keyError "uniqueName") ∧
    search_members c6Lookup ["A", "B"] ≠ Except.ok (SearchMembersReturn.list
      [ { entity_name := "A",
          member := some { dimension := "Dim", name := "A", unique_name := "[A]" } },
        { entity_name := "B", member := none } ]) :=
  ⟨rfl, fun h => Except.noConfusion h⟩

/-- Claim C6 (amended): if the candidate selected for some batched entity
lacks a `uniqueName`, the unconditional subscript `item['uniqueName']` raises
`KeyError`, aborting the entire `search_members` call: no results are
returned for any entity of the batch, not merely the defective one. -/
theorem missing_unique_name_aborts_batch
    (lookup : String → LookupResult) (names : List String) (q : String)
    (items : List Item) (item : Item)
    (hq : q ∈ names) (hl : lookup q = LookupResult.success items)
    (hsel : select_item q items = some item) (hu : item.uniqueName = none) :
    ∃ e, search_members lookup names = Except.error e := by
  have hres : resolve_one lookup q = Except.error (PyError.keyError "uniqueName") := by
    simp [resolve_one, hl, hsel, member_from_item, hu]
  obtain ⟨e', hloop⟩ := search_members_loop_error_of_mem lookup q _ hres names hq
  refine ⟨e', ?_⟩
  unfold search_members
  rw [hloop]

/-- Witness for amended C6: under `c6Lookup`, the batch `["A", "B"]` aborts
with an error although `"A"` alone resolves fine. -/
theorem missing_unique_name_aborts_batch_witness :
    ∃ e, search_members c6Lookup ["A", "B"] = Except.error e :=
  missing_unique_name_aborts_batch c6Lookup ["A", "B"] "B" [noUniqueItemB]
    noUniqueItemB (by simp) rfl rfl rfl

/-- Claim C7, evaluated on the code: the list variant of `set_MDX_expression`
never reaches the list branch — the first `isinstance` check is against the
TypedDict `MemberRange` and raises `TypeError` for every input — so neither
`"\x7bA, B, C\x7d"` nor `"\x7b\x7d"` is ever produced. -/
theorem set_MDX_expression_list_raises :
    set_MDX_expression { members := Members.names ["A", "B", "C"] } =
      Except.error
        (PyError.typeError "TypedDict does not support instance and class checks") ∧
    set_MDX_expression { members := Members.names [] } =
      Except.error
        (PyError.typeError "TypedDict does not support instance and class checks") :=
  ⟨rfl, rfl⟩

/-- Counterexample to C8 as stated: with bare-string endpoints `"Jan"` and
`"Dec"`, the subscript `endpoint['unique_name']` raises `TypeError` instead
of rendering the raw strings, so the claimed `"MemberRange(Jan, Dec)"` is not
returned. -/
theorem member_range_raw_string_counterexample :
    member_range_MDX_expression
        { start_member_name := MemberOrName.name "Jan",
          end_member_name := MemberOrName.name "Dec" } =
      Except.error (PyError.typeError "string indices must be integers") ∧
    member_range_MDX_expression
        { start_member_name := MemberOrName.name "Jan",
          end_member_name := MemberOrName.name "Dec" } ≠
      Except.ok "MemberRange(Jan, Dec)" :=
  ⟨rfl, fun h => Except.noConfusion h⟩

/-- Claim C8 (amended): for every `MemberRange` whose endpoints are Members,
`member_range_MDX_expression` returns the literal template
`MemberRange(<start>, <end>)` with each endpoint's `unique_name` inserted
verbatim — no escaping, quoting, or validation — while a bare-string endpoint
raises `TypeError` rather than rendering the raw string. -/
theorem member_range_MDX_expression_members (m₁ m₂ : Member) (s : String) :
    member_range_MDX_expression
        { start_member_name := MemberOrName.member m₁,
          end_member_name := MemberOrName.member m₂ } =
      Except.ok ("MemberRange(" ++ m₁.unique_name ++ ", " ++ m₂.unique_name ++ ")") ∧
    member_range_MDX_expression
        { start_member_name := MemberOrName.name s,
          end_member_name := MemberOrName.name s } =
      Except.error (PyError.typeError "string indices must be integers") :=
  ⟨rfl, rfl⟩

/-- Claim C9, evaluated on the code: the function variant of
`set_MDX_expression` never reaches the `SetFunction` branch — the first
`isinstance` check is against the TypedDict `MemberRange` and raises
`TypeError` for every input — so `"Children()"` is never produced. -/
theorem set_MDX_expression_function_raises :
    set_MDX_expression { members := Members.fn { function_name := "Children" } } =
      Except.error
        (PyError.typeError "TypedDict does not support instance and class checks") :=
  rfl

/-- Claim C10: on every input on which `search_members` returns normally, the
returned value is the list side of the declared
`List[SearchMemberResult] | str` union; no execution path produces the
string side. -/
theorem search_members_never_returns_str (lookup : String → LookupResult)
    (names : List String) (r : SearchMembersReturn)
    (h : search_members lookup names = Except.ok r) :
    ∃ rs : List SearchMemberResult, r = SearchMembersReturn.list rs := by
  unfold search_members at h
  cases hl : search_members_loop lookup names with
  | error e => rw [hl] at h; simp at h
  | ok rs =>
    rw [hl] at h
    simp only [Except.ok.injEq] at h
    exact ⟨rs, h.symm⟩

/-- Witness for C10 on a one-element batch whose lookup fails: the normal
return is the list `[⟨"a", None⟩]`. -/
theorem search_members_never_returns_str_witness :
    ∃ rs, SearchMembersReturn.list
        [({ entity_name := "a", member := none } : SearchMemberResult)] =
      SearchMembersReturn.list rs :=
  search_members_never_returns_str (fun _ => LookupResult.failure) ["a"]
    (SearchMembersReturn.list [{ entity_name := "a", member := none }]) rfl

end EPM
